import Mathlib

/-!
Shallow embedding of the `handle-key` Rust crate (`src/lib.rs`).

The crate defines a tagged key type `HandleKey` with three variants
(`Str(&'static str)`, `String(String)`, `Number(usize)`), conversion
impls into it, and a typed handle `Handle<T>` carrying a `HandleKey`
and an optional shared counter `Option<Arc<()>>`.

Rust strings (`&'static str`, `String`, `&str`) are all modelled as
Lean `String`; the variant tag keeps them apart exactly as the Rust
enum does.  `usize` is modelled as `Nat`.  The `Arc<()>` allocations
are modelled by an explicit heap `ArcHeap`: each live `Arc` is a cell
identified by a natural number, holding its strong count; `Arc::new`
allocates a fresh cell at strong count 1, `Arc::clone` increments the
cell, dropping decrements it.  Operations that in Rust touch the
allocator thread the heap explicitly.
-/

/-- Lean's string type, bound before `HandleKey` is declared so that it
stays visible inside the `HandleKey` namespace (where the constructor
name `String` shadows it). -/
abbrev RustString := String

/-- The `HandleKey` enum of `src/lib.rs`:
`Str(&'static str) | String(String) | Number(usize)`. -/
inductive HandleKey where
  | Str (s : String)
  | String (s : String)
  | Number (n : Nat)
deriving Repr, DecidableEq

/-- `impl From<String> for HandleKey`: `HandleKey::String(s)`. -/
def HandleKey.fromOwnedString (s : RustString) : HandleKey :=
  HandleKey.String s

/-- `impl From<&String> for HandleKey`: `HandleKey::String(s.clone())`.
Cloning an owned string yields an equal owned string. -/
def HandleKey.fromStringRef (s : RustString) : HandleKey :=
  HandleKey.String s

/-- `impl From<usize> for HandleKey`: `HandleKey::Number(k)`. -/
def HandleKey.fromUsize (n : Nat) : HandleKey :=
  HandleKey.Number n

/-- `impl From<&str> for HandleKey`: `HandleKey::from(s.to_string())`,
i.e. it delegates to the `From<String>` impl after allocating an owned
copy of the slice. -/
def HandleKey.fromStrSlice (s : RustString) : HandleKey :=
  HandleKey.fromOwnedString s

/-- The derived `PartialEq`/`Eq` of `HandleKey`: structural equality,
dispatching on the variant tag first, then comparing payloads. -/
def HandleKey.beq : HandleKey → HandleKey → Bool
  | HandleKey.Str a, HandleKey.Str b => a == b
  | HandleKey.String a, HandleKey.String b => a == b
  | HandleKey.Number a, HandleKey.Number b => a == b
  | _, _ => false

/-- Payload hash for textual payloads, standing in for the `str` hash
that both `&'static str` and `String` feed to the hasher. -/
def strHash (s : String) : Nat :=
  s.data.foldl (fun h c => h * 31 + c.toNat) 5381

/-- The derived `Hash` of `HandleKey`: the hasher state receives the
variant discriminant first, then the payload. -/
def HandleKey.hash : HandleKey → Nat
  | HandleKey.Str s => 0 * 1000003 + strHash s
  | HandleKey.String s => 1 * 1000003 + strHash s
  | HandleKey.Number n => 2 * 1000003 + n

/-- The heap of live `Arc<()>` allocations: `fresh` is the next unused
cell id, `counts i` is the strong count of cell `i`. -/
structure ArcHeap where
  fresh : Nat
  counts : Nat → Nat

/-- Pointwise update of a counts function. -/
def ArcHeap.write (f : Nat → Nat) (i v : Nat) : Nat → Nat :=
  fun j => if j = i then v else f j

/-- The empty heap: no `Arc` has been allocated yet. -/
def ArcHeap.empty : ArcHeap :=
  ⟨0, fun _ => 0⟩

/-- `Arc::new(())`: allocate a fresh cell at strong count 1, returning
its id. -/
def ArcHeap.alloc (σ : ArcHeap) : Nat × ArcHeap :=
  (σ.fresh, ⟨σ.fresh + 1, ArcHeap.write σ.counts σ.fresh 1⟩)

/-- `Arc::clone`: increment the strong count of cell `i`. -/
def ArcHeap.incr (σ : ArcHeap) (i : Nat) : ArcHeap :=
  ⟨σ.fresh, ArcHeap.write σ.counts i (σ.counts i + 1)⟩

/-- Dropping one `Arc` handle on cell `i`: decrement its strong count. -/
def ArcHeap.decr (σ : ArcHeap) (i : Nat) : ArcHeap :=
  ⟨σ.fresh, ArcHeap.write σ.counts i (σ.counts i - 1)⟩

/-- `Arc::strong_count` on cell `i`: the live-strength. -/
def ArcHeap.strongCount (σ : ArcHeap) (i : Nat) : Nat :=
  σ.counts i

/-- The `Handle<T>` struct: a key, and an optional `Arc<()>` counter
modelled as the id of a heap cell.  `T` is the phantom marker type:
it contributes no runtime data, exactly as `PhantomData<T>`. -/
structure Handle (T : Type) where
  key : HandleKey
  count : Option Nat
deriving Repr, DecidableEq

/-- `Handle::new<K>`: converts the input with the chosen `From` impl
(`conv` stands for `HandleKey::from`), and allocates a fresh counter:
`count = Some(Arc::new(()))`. -/
def Handle.new (T : Type) {K : Type} (conv : K → HandleKey) (k : K)
    (σ : ArcHeap) : Handle T × ArcHeap :=
  let a := σ.alloc
  (⟨conv k, some a.1⟩, a.2)

/-- `Handle::from_static`: builds the `Str` variant directly, with
`count = None`.  No heap interaction at all (it is a `const fn`). -/
def Handle.fromStatic (T : Type) (key : String) : Handle T :=
  ⟨HandleKey.Str key, none⟩

/-- `impl Clone for Handle<T>`: clones the key, and clones the
optional counter — `Option::<Arc<()>>::clone` increments the shared
cell when present and stays `None` when absent. -/
def Handle.clone {T : Type} (h : Handle T) (σ : ArcHeap) :
    Handle T × ArcHeap :=
  match h.count with
  | none => (⟨h.key, none⟩, σ)
  | some i => (⟨h.key, some i⟩, σ.incr i)

/-- Dropping a `Handle<T>`: releases its stake in the counter when one
is present. -/
def Handle.drop {T : Type} (h : Handle T) (σ : ArcHeap) : ArcHeap :=
  match h.count with
  | none => σ
  | some i => σ.decr i

/-- `n` successive clones starting from `h` (each clone cloning the
previous one), threading the heap. -/
def Handle.cloneN {T : Type} (h : Handle T) (σ : ArcHeap) :
    Nat → Handle T × ArcHeap
  | 0 => (h, σ)
  | n + 1 =>
    let p := Handle.cloneN h σ n
    Handle.clone p.1 p.2

/-- `impl PartialEq for Handle<T>`: `self.key == other.key`. -/
def Handle.beq {T : Type} (h1 h2 : Handle T) : Bool :=
  HandleKey.beq h1.key h2.key

/-- `impl Hash for Handle<T>`: `self.key.hash(state)` — the hasher
sees exactly what the key alone would feed it. -/
def Handle.hash {T : Type} (h : Handle T) : Nat :=
  HandleKey.hash h.key

/-! Basic lemmas about the embedded equality. -/

/-- The derived structural equality decides propositional equality. -/
theorem HandleKey.beq_iff (a b : HandleKey) :
    HandleKey.beq a b = true ↔ a = b := by
  cases a <;> cases b <;>
    simp [HandleKey.beq, beq_iff_eq]

/-- The derived structural equality is reflexive. -/
theorem HandleKey.beq_refl (a : HandleKey) : HandleKey.beq a a = true :=
  (HandleKey.beq_iff a a).mpr rfl

/-- Cloning a handle preserves the key. -/
theorem Handle.clone_key {T : Type} (h : Handle T) (σ : ArcHeap) :
    (Handle.clone h σ).1.key = h.key := by
  obtain ⟨k, c⟩ := h
  cases c <;> rfl

/-- Cloning a handle preserves the optional counter id: a present
counter is shared (same cell), an absent one stays absent. -/
theorem Handle.clone_count {T : Type} (h : Handle T) (σ : ArcHeap) :
    (Handle.clone h σ).1.count = h.count := by
  obtain ⟨k, c⟩ := h
  cases c <;> rfl

/-- Iterated clones of a counter-less handle never acquire a counter. -/
theorem Handle.cloneN_count_none {T : Type} (h : Handle T) (σ : ArcHeap)
    (hc : h.count = none) (n : Nat) :
    (Handle.cloneN h σ n).1.count = none := by
  induction n with
  | zero => exact hc
  | succ n ih =>
    show (Handle.clone (Handle.cloneN h σ n).1 (Handle.cloneN h σ n).2).1.count = none
    rw [Handle.clone_count]
    exact ih

/-- C1: for every static text `s`, `Handle::from_static(s)` and
`Handle::new(s)` (same marker type) compare unequal: the former's key
is the `Str` variant, the latter's the `String` variant, and derived
equality is variant-sensitive. -/
theorem c1_static_vs_dynamic_unequal (T : Type) (s : String) (σ : ArcHeap) :
    Handle.beq (Handle.fromStatic T s)
      (Handle.new T HandleKey.fromStrSlice s σ).1 = false := rfl

/-- C2: handle equality is exactly key equality, handle hash is
exactly the key's hash, and the `count` field affects neither. -/
theorem c2_eq_hash_depend_only_on_key (T : Type) (h1 h2 : Handle T)
    (k1 k2 : HandleKey) (c1 c1' c2 c2' : Option Nat) :
    (Handle.beq h1 h2 = HandleKey.beq h1.key h2.key) ∧
    (Handle.hash h1 = HandleKey.hash h1.key) ∧
    (Handle.beq (⟨k1, c1⟩ : Handle T) ⟨k2, c2⟩ =
      Handle.beq (⟨k1, c1'⟩ : Handle T) ⟨k2, c2'⟩) ∧
    (Handle.hash (⟨k1, c1⟩ : Handle T) = Handle.hash (⟨k1, c1'⟩ : Handle T)) :=
  ⟨rfl, rfl, rfl, rfl⟩

/-- C3: `Handle::new` (under any accepted `From` conversion) returns a
handle whose counter is present with live-strength 1 immediately after
construction; `Handle::from_static` returns a handle with no counter. -/
theorem c3_counter_presence (T : Type) {K : Type} (conv : K → HandleKey)
    (k : K) (σ : ArcHeap) (s : String) :
    (Handle.new T conv k σ).1.count = some σ.fresh ∧
    ArcHeap.strongCount (Handle.new T conv k σ).2 σ.fresh = 1 ∧
    (Handle.fromStatic T s).count = none := by
  refine ⟨rfl, ?_, rfl⟩
  simp [Handle.new, ArcHeap.alloc, ArcHeap.strongCount, ArcHeap.write]

/-- C4: after `h1 = Handle::new(k)`, `h2 = h1.clone()`,
`h3 = h2.clone()`, all three handles point at the one counter cell
allocated by `new`, its live-strength is 3, and dropping `h2` and `h3`
brings it back to 1. -/
theorem c4_counter_sharing (T : Type) {K : Type} (conv : K → HandleKey)
    (k : K) (σ : ArcHeap) :
    let p1 := Handle.new T conv k σ
    let p2 := Handle.clone p1.1 p1.2
    let p3 := Handle.clone p2.1 p2.2
    p1.1.count = some σ.fresh ∧
    p2.1.count = some σ.fresh ∧
    p3.1.count = some σ.fresh ∧
    ArcHeap.strongCount p3.2 σ.fresh = 3 ∧
    ArcHeap.strongCount (Handle.drop p3.1 (Handle.drop p2.1 p3.2)) σ.fresh = 1 := by
  refine ⟨rfl, rfl, rfl, ?_, ?_⟩ <;>
    simp [Handle.new, Handle.clone, Handle.drop, ArcHeap.alloc,
      ArcHeap.incr, ArcHeap.decr, ArcHeap.strongCount, ArcHeap.write]

/-- C5: hash consistency — equal handles (of the same marker type)
have equal hashes. -/
theorem c5_hash_consistency (T : Type) (a b : Handle T)
    (h : Handle.beq a b = true) : Handle.hash a = Handle.hash b := by
  have hk : a.key = b.key := (HandleKey.beq_iff a.key b.key).mp h
  show HandleKey.hash a.key = HandleKey.hash b.key
  rw [hk]

/-- Witness for C5 at a concrete pair of handles that share a key but
differ in their `count` field. -/
theorem c5_hash_consistency_witness :
    Handle.hash (⟨HandleKey.Str "x", none⟩ : Handle Unit) =
      Handle.hash (⟨HandleKey.Str "x", some 3⟩ : Handle Unit) :=
  c5_hash_consistency Unit ⟨HandleKey.Str "x", none⟩
    ⟨HandleKey.Str "x", some 3⟩ (by decide)

/-- C6 counterexample: converting the static literal `"x"` through the
accepted conversion into a key (the `From<&str>` impl) yields the
owned `String` variant, not the `Str` (StaticLabel) variant the claim
asserts. -/
theorem c6_counterexample :
    HandleKey.fromStrSlice "x" ≠ HandleKey.Str "x" ∧
    HandleKey.fromStrSlice "x" = HandleKey.String "x" :=
  ⟨by decide, rfl⟩

/-- C6 amended: converting a static textual literal through the
accepted conversions into a key yields the owned-label (`String`)
variant (allocating an owned copy); the static-label (`Str`) variant
arises only from `Handle::from_static`'s direct construction. -/
theorem c6_amended_static_literal_conversion (s : String) (T : Type) :
    HandleKey.fromStrSlice s = HandleKey.String s ∧
    (Handle.fromStatic T s).key = HandleKey.Str s :=
  ⟨rfl, rfl⟩

/-- C7: `Handle::new(42usize)` has key `Number 42`, and in general the
`From<usize>` conversion sends `n` to `Number n`. -/
theorem c7_numeric_key (T : Type) (σ : ArcHeap) (n : Nat) :
    (Handle.new T HandleKey.fromUsize 42 σ).1.key = HandleKey.Number 42 ∧
    HandleKey.fromUsize n = HandleKey.Number n :=
  ⟨rfl, rfl⟩

/-- C8: a clone has an equal key (so it equals the original), shares
the original's counter cell when one is present (live-strength goes up
by 1), stays counter-less when none is present, and a `from_static`
handle has no counter after any number of clones. -/
theorem c8_clone_spec (T : Type) (h : Handle T) (σ : ArcHeap)
    (s : String) (n : Nat) :
    ((Handle.clone h σ).1.key = h.key) ∧
    (Handle.beq (Handle.clone h σ).1 h = true) ∧
    ((Handle.clone h σ).1.count = h.count) ∧
    (∀ i, h.count = some i →
      ArcHeap.strongCount (Handle.clone h σ).2 i =
        ArcHeap.strongCount σ i + 1) ∧
    (h.count = none → (Handle.clone h σ).2 = σ) ∧
    ((Handle.cloneN (Handle.fromStatic T s) σ n).1.count = none) := by
  refine ⟨Handle.clone_key h σ, ?_, Handle.clone_count h σ, ?_, ?_, ?_⟩
  · show HandleKey.beq (Handle.clone h σ).1.key h.key = true
    rw [Handle.clone_key]
    exact HandleKey.beq_refl h.key
  · intro i hi
    obtain ⟨k, c⟩ := h
    cases c with
    | none => cases hi
    | some j =>
      cases hi
      simp [Handle.clone, ArcHeap.incr, ArcHeap.strongCount, ArcHeap.write]
  · intro hi
    obtain ⟨k, c⟩ := h
    cases c with
    | none => rfl
    | some j => cases hi
  · exact Handle.cloneN_count_none _ _ rfl n

/-- Witness for C8: applying the clone specification to a concrete
counted handle (cell 0 at strength 1) and to five clones of a static
handle. -/
theorem c8_clone_spec_witness :
    ArcHeap.strongCount
      (Handle.clone (⟨HandleKey.Number 7, some 0⟩ : Handle Unit)
        ⟨1, fun j => if j = 0 then 1 else 0⟩).2 0 = 2 ∧
    (Handle.cloneN (Handle.fromStatic Unit "s") ArcHeap.empty 5).1.count = none := by
  constructor
  · have h2 := (c8_clone_spec Unit ⟨HandleKey.Number 7, some 0⟩
      ⟨1, fun j => if j = 0 then 1 else 0⟩ "s" 5).2.2.2.1 0 rfl
    simpa [ArcHeap.strongCount] using h2
  · exact (c8_clone_spec Unit ⟨HandleKey.Number 7, some 0⟩
      ArcHeap.empty "s" 5).2.2.2.2.2

/-- C9: every operation of the core is total — each conversion,
constructor, clone, equality and hash is a function defined on every
input, with no error branch (no `Option`/`Except` in any result). -/
theorem c9_totality (T : Type) {K : Type} (conv : K → HandleKey)
    (s t : String) (n : Nat) (k : K) (σ : ArcHeap) (h h' : Handle T) :
    (∃ r, HandleKey.fromOwnedString s = r) ∧
    (∃ r, HandleKey.fromStringRef s = r) ∧
    (∃ r, HandleKey.fromStrSlice s = r) ∧
    (∃ r, HandleKey.fromUsize n = r) ∧
    (∃ r, Handle.new T conv k σ = r) ∧
    (∃ r, Handle.fromStatic T t = r) ∧
    (∃ r, Handle.clone h σ = r) ∧
    (∃ b, Handle.beq h h' = b) ∧
    (∃ v, Handle.hash h = v) :=
  ⟨⟨_, rfl⟩, ⟨_, rfl⟩, ⟨_, rfl⟩, ⟨_, rfl⟩, ⟨_, rfl⟩, ⟨_, rfl⟩,
    ⟨_, rfl⟩, ⟨_, rfl⟩, ⟨_, rfl⟩⟩

/-- C10: the three textual conversions into `HandleKey` agree — all
yield `String s` for content `s` — so `Handle::new` on a text slice
and on an owned string with the same content produce equal handles. -/
theorem c10_textual_conversions_agree (s : String) (T : Type)
    (σ1 σ2 : ArcHeap) :
    HandleKey.fromOwnedString s = HandleKey.String s ∧
    HandleKey.fromStringRef s = HandleKey.String s ∧
    HandleKey.fromStrSlice s = HandleKey.String s ∧
    Handle.beq (Handle.new T HandleKey.fromStrSlice s σ1).1
      (Handle.new T HandleKey.fromOwnedString s σ2).1 = true :=
  ⟨rfl, rfl, rfl, HandleKey.beq_refl (HandleKey.String s)⟩
